import Mathlib

/-!
Shallow embedding of the sofars precession-nutation pipeline and its
peripheral utilities (mean obliquity `obl80`, composer `pn00`, refraction
constants `refco`, light deflection `ld`), with double-precision arithmetic
modelled as exact rational arithmetic.  Collaborator functions that the
composer consumes but whose source is not part of this slice (`pr00`,
`bp00`, `numat`) are taken as explicit function parameters, matching their
collaborator-interface contracts; the vector/matrix primitives (`cr`,
`rxr`, `pdp`, `pxp`) and numeric constants are modelled from the spec.
-/

/-- A 3-vector of doubles, modelled over ℚ. -/
def V3 : Type := Fin 3 → ℚ

/-- A 3x3 matrix of doubles, modelled over ℚ. -/
def M3 : Type := Fin 3 → Fin 3 → ℚ

instance : DecidableEq V3 :=
  inferInstanceAs (DecidableEq (Fin 3 → ℚ))

instance : DecidableEq M3 :=
  inferInstanceAs (DecidableEq (Fin 3 → Fin 3 → ℚ))

/-- Modelled from the spec: `copyMatrix(src) -> dst`, element-wise
duplication (source function `cr` in the vm module, not under src/);
as a value-producing function it is the identity. -/
def cr (m : M3) : M3 := m

/-- Modelled from the spec: `matmul(a, b) -> c`, standard 3x3 product
`c = a.b` (source function `rxr` in the vm module, not under src/). -/
def rxr (a b : M3) : M3 := fun i j =>
  a i 0 * b 0 j + a i 1 * b 1 j + a i 2 * b 2 j

/-- Modelled from the spec: `dot(a, b) -> scalar`, Euclidean inner
product of two 3-vectors (source function `pdp` in the vm module, not
under src/). -/
def pdp (a b : V3) : ℚ := a 0 * b 0 + a 1 * b 1 + a 2 * b 2

/-- Modelled from the spec: `cross(a, b) -> vector`, right-handed vector
product (source function `pxp` in the vm module, not under src/). -/
def pxp (a b : V3) : V3 :=
  ![a 1 * b 2 - a 2 * b 1, a 2 * b 0 - a 0 * b 2, a 0 * b 1 - a 1 * b 0]

/-- Modelled from the spec: the fixed arcseconds-to-radians conversion
constant `DAS2R` (consts module, not under src/). -/
def DAS2R : ℚ := 4.848136811095359935899141e-6

/-- Modelled from the spec: the reference epoch J2000.0 as a Julian Date,
`DJ00` (consts module, not under src/). -/
def DJ00 : ℚ := 2451545.0

/-- Modelled from the spec: days per Julian century, `DJC` (consts
module, not under src/). -/
def DJC : ℚ := 36525.0

/-- Modelled from the spec: the Schwarzschild-radius scale constant `SRS`
used by the light-deflection formula (consts module, not under src/); its
numeric value plays no role in the claims below. -/
def SRS : ℚ := 1.97412574336e-8

/-- Mean obliquity of the ecliptic, IAU 1980 model (src/src/pnp/obl80.rs). -/
def obl80 (date1 date2 : ℚ) : ℚ :=
  let t := ((date1 - DJ00) + date2) / DJC
  DAS2R * (84381.448 +
          (  -46.8150 +
          (   -0.00059 +
          (    0.001813) * t) * t) * t)

/-- Bias/precession/nutation results, IAU 2000 (src/src/pnp/pn00.rs),
as a pure function of its inputs.  The collaborators `pr00`, `bp00` and
`numat` (not under src/) are explicit parameters, per their
collaborator-interface contracts.  Returns
(epsa, rb, rp, rbp, rn, rbpn). -/
def pn00 (pr00 : ℚ → ℚ → ℚ × ℚ) (bp00 : ℚ → ℚ → M3 × M3 × M3)
    (numat : ℚ → ℚ → ℚ → M3) (date1 date2 dpsi deps : ℚ) :
    ℚ × M3 × M3 × M3 × M3 × M3 :=
  let depspr := (pr00 date1 date2).2
  let epsa := obl80 date1 date2 + depspr
  let b := bp00 date1 date2
  let rb := b.1
  let rp := b.2.1
  let rbpw := b.2.2
  let rbp := cr rbpw
  let rnw := numat epsa dpsi deps
  let rn := cr rnw
  let rbpn := rxr rnw rbpw
  (epsa, rb, rp, rbp, rn, rbpn)

/-- A single store update: write matrix `m` at location `l`. -/
def wrM {α : Type} [DecidableEq α] (s : α → M3) (l : α) (m : M3) : α → M3 :=
  fun x => if x = l then m else s x

/-- Apply a sequence of writes to a store, in order. -/
def applyWrites {α : Type} [DecidableEq α] (s : α → M3) :
    List (α × M3) → (α → M3)
  | [] => s
  | (l, m) :: ws => applyWrites (wrM s l m) ws

/-- The composer `pn00` as a write trace over caller-owned storage
(src/src/pnp/pn00.rs): `lb`, `lp`, `lbp`, `ln3`, `lbpn` are the storage
locations of the five matrix output arguments (possibly aliased), and the
returned list is the sequence of writes the function performs, in source
order.  Every matrix read after a caller-visible output is written is read
from the private temporaries `rbpw` and `rnw`, exactly as in lines
102-121 of the source, never from caller storage. -/
def pn00Trace {α : Type} (pr00 : ℚ → ℚ → ℚ × ℚ)
    (bp00 : ℚ → ℚ → M3 × M3 × M3) (numat : ℚ → ℚ → ℚ → M3)
    (date1 date2 dpsi deps : ℚ) (lb lp lbp ln3 lbpn : α) :
    ℚ × List (α × M3) :=
  let depspr := (pr00 date1 date2).2
  let epsa := obl80 date1 date2 + depspr
  let b := bp00 date1 date2
  let rbpw := b.2.2
  let rnw := numat epsa dpsi deps
  (epsa, [(lb, b.1), (lp, b.2.1), (lbp, cr rbpw), (ln3, cr rnw),
          (lbpn, rxr rnw rbpw)])

/-- The composer `pn00` as a state transformer on caller storage: the
scalar output `epsa` together with the final contents of the store after
all five matrix writes. -/
def pn00Store {α : Type} [DecidableEq α] (pr00 : ℚ → ℚ → ℚ × ℚ)
    (bp00 : ℚ → ℚ → M3 × M3 × M3) (numat : ℚ → ℚ → ℚ → M3)
    (date1 date2 dpsi deps : ℚ) (lb lp lbp ln3 lbpn : α) (s : α → M3) :
    ℚ × (α → M3) :=
  let r := pn00Trace pr00 bp00 numat date1 date2 dpsi deps lb lp lbp ln3 lbpn
  (r.1, applyWrites s r.2)

/-- Refraction constants (src/src/astro/refco.rs).  The standard-library
power function `10.0_f64.powf` is taken as an explicit parameter `pow10`
(there is no rational power with fractional exponents); every theorem
below holds for all `pow10`. -/
def refco (pow10 : ℚ → ℚ) (phpa tc rh wl : ℚ) : ℚ × ℚ :=
  let optic := wl ≤ 100.0
  let t := min (max tc (-150.0)) 200.0
  let p := min (max phpa 0.0) 10000.0
  let r := min (max rh 0.0) 1.0
  let w := min (max wl 0.1) 1e6
  let pw := if 0.0 < p then
      let ps := pow10 ((0.7859 + 0.03477 * t) / (1.0 + 0.00412 * t)) *
        (1.0 + p * (4.5e-6 + 6e-10 * t * t))
      r * ps / (1.0 - (1.0 - r) * ps / p)
    else 0.0
  let tk := t + 273.15
  let gamma := if optic then
      let wlsq := w * w
      ((77.53484e-6 + (4.39108e-7 + 3.666e-9 / wlsq) / wlsq) * p
        - 11.2684e-6 * pw) / tk
    else
      (77.6890e-6 * p - (6.3938e-6 - 0.375463 / tk) * pw) / tk
  let beta0 := 4.4474e-6 * tk
  let beta := if optic then beta0 else beta0 - 0.0074 * pw * beta0
  let refa := gamma * (1.0 - beta)
  let refb := -gamma * (beta - gamma / 2.0)
  (refa, refb)

/-- The optical/IR formula branch of `refco` as a straight-line function:
identical to `refco` except that the branch condition is fixed to the
optical case (lines 184-186 and 192 of the source). -/
def refcoOpticBranch (pow10 : ℚ → ℚ) (phpa tc rh wl : ℚ) : ℚ × ℚ :=
  let t := min (max tc (-150.0)) 200.0
  let p := min (max phpa 0.0) 10000.0
  let r := min (max rh 0.0) 1.0
  let w := min (max wl 0.1) 1e6
  let pw := if 0.0 < p then
      let ps := pow10 ((0.7859 + 0.03477 * t) / (1.0 + 0.00412 * t)) *
        (1.0 + p * (4.5e-6 + 6e-10 * t * t))
      r * ps / (1.0 - (1.0 - r) * ps / p)
    else 0.0
  let tk := t + 273.15
  let wlsq := w * w
  let gamma := ((77.53484e-6 + (4.39108e-7 + 3.666e-9 / wlsq) / wlsq) * p
      - 11.2684e-6 * pw) / tk
  let beta := 4.4474e-6 * tk
  let refa := gamma * (1.0 - beta)
  let refb := -gamma * (beta - gamma / 2.0)
  (refa, refb)

/-- The radio formula branch of `refco` as a straight-line function:
identical to `refco` except that the branch condition is fixed to the
radio case (lines 188 and 193-194 of the source). -/
def refcoRadioBranch (pow10 : ℚ → ℚ) (phpa tc rh wl : ℚ) : ℚ × ℚ :=
  let t := min (max tc (-150.0)) 200.0
  let p := min (max phpa 0.0) 10000.0
  let r := min (max rh 0.0) 1.0
  let pw := if 0.0 < p then
      let ps := pow10 ((0.7859 + 0.03477 * t) / (1.0 + 0.00412 * t)) *
        (1.0 + p * (4.5e-6 + 6e-10 * t * t))
      r * ps / (1.0 - (1.0 - r) * ps / p)
    else 0.0
  let tk := t + 273.15
  let gamma := (77.6890e-6 * p - (6.3938e-6 - 0.375463 / tk) * pw) / tk
  let beta0 := 4.4474e-6 * tk
  let beta := beta0 - 0.0074 * pw * beta0
  let refa := gamma * (1.0 - beta)
  let refb := -gamma * (beta - gamma / 2.0)
  (refa, refb)

/-- The limiter-guarded divisor of `ld` (line 82 of
src/src/astro/ld.rs): `qdqpe.max(dlim)` where `qdqpe = q . (q + e)`. -/
def ldDenom (q e : V3) (dlim : ℚ) : ℚ :=
  max (pdp q (fun i => q i + e i)) dlim

/-- Light deflection by a single solar-system body
(src/src/astro/ld.rs). -/
def ld (bm : ℚ) (p q e : V3) (em dlim : ℚ) : V3 :=
  let w := bm * SRS / em / ldDenom q e dlim
  let eq := pxp e q
  let peq := pxp p eq
  fun i => p i + w * peq i

/-- C1: for every input (and every collaborator implementation), the full
bias-precession-nutation matrix `rbpn` returned by `pn00` equals the
product of the returned nutation matrix `rn` and the returned
bias-precession matrix `rbp`, in that order: `rbpn = rn . rbp`. -/
theorem pn00_rbpn_is_rn_times_rbp (pr00 : ℚ → ℚ → ℚ × ℚ)
    (bp00 : ℚ → ℚ → M3 × M3 × M3) (numat : ℚ → ℚ → ℚ → M3)
    (date1 date2 dpsi deps : ℚ) :
    (pn00 pr00 bp00 numat date1 date2 dpsi deps).2.2.2.2.2 =
      rxr (pn00 pr00 bp00 numat date1 date2 dpsi deps).2.2.2.2.1
          (pn00 pr00 bp00 numat date1 date2 dpsi deps).2.2.2.1 := rfl

/-- C2: the `epsa` returned by `pn00` is the raw mean obliquity
`obl80(date1, date2)` plus the obliquity-rate adjustment `depspr` from
`pr00`, and the returned nutation matrix `rn` is `numat` applied to this
adjusted `epsa` (with `dpsi`, `deps`), not to the raw mean obliquity. -/
theorem pn00_epsa_adjusted (pr00 : ℚ → ℚ → ℚ × ℚ)
    (bp00 : ℚ → ℚ → M3 × M3 × M3) (numat : ℚ → ℚ → ℚ → M3)
    (date1 date2 dpsi deps : ℚ) :
    (pn00 pr00 bp00 numat date1 date2 dpsi deps).1 =
      obl80 date1 date2 + (pr00 date1 date2).2 ∧
    (pn00 pr00 bp00 numat date1 date2 dpsi deps).2.2.2.2.1 =
      numat (obl80 date1 date2 + (pr00 date1 date2).2) dpsi deps :=
  ⟨rfl, rfl⟩

/-- C3: calling the composer with all five matrix output arguments at one
shared storage location produces the same scalar `epsa` and the same
sequence of written matrix values as calling it with any five (in
particular independent) storage locations, and those six logical results
are exactly the six outputs of the pure composer: aliasing cannot corrupt
them because every later read goes through a private temporary. -/
theorem pn00_alias_safe {α β : Type} (pr00 : ℚ → ℚ → ℚ × ℚ)
    (bp00 : ℚ → ℚ → M3 × M3 × M3) (numat : ℚ → ℚ → ℚ → M3)
    (date1 date2 dpsi deps : ℚ) (l : α) (m1 m2 m3 m4 m5 : β) :
    (pn00Trace pr00 bp00 numat date1 date2 dpsi deps l l l l l).1 =
      (pn00Trace pr00 bp00 numat date1 date2 dpsi deps m1 m2 m3 m4 m5).1 ∧
    (pn00Trace pr00 bp00 numat date1 date2 dpsi deps l l l l l).2.map
        Prod.snd =
      (pn00Trace pr00 bp00 numat date1 date2 dpsi deps
        m1 m2 m3 m4 m5).2.map Prod.snd ∧
    (pn00Trace pr00 bp00 numat date1 date2 dpsi deps l l l l l).1 =
      (pn00 pr00 bp00 numat date1 date2 dpsi deps).1 ∧
    (pn00Trace pr00 bp00 numat date1 date2 dpsi deps l l l l l).2.map
        Prod.snd =
      [(pn00 pr00 bp00 numat date1 date2 dpsi deps).2.1,
       (pn00 pr00 bp00 numat date1 date2 dpsi deps).2.2.1,
       (pn00 pr00 bp00 numat date1 date2 dpsi deps).2.2.2.1,
       (pn00 pr00 bp00 numat date1 date2 dpsi deps).2.2.2.2.1,
       (pn00 pr00 bp00 numat date1 date2 dpsi deps).2.2.2.2.2] :=
  ⟨rfl, rfl, rfl, rfl⟩

/-- C4: the mean obliquity at J2000.0 (date1 = 2451545.0, date2 = 0.0) is
exactly 84381.448 arcseconds converted to radians: the Julian-centuries
argument is exactly zero, so the Horner cubic collapses to its
zeroth-order coefficient. -/
theorem obl80_at_J2000 : obl80 2451545.0 0.0 = DAS2R * 84381.448 := by
  norm_num [obl80, DJ00, DJC]

/-- C5: the mean obliquity depends only on the sum of the two Julian Date
parts: any two splits with equal sums give equal results. -/
theorem obl80_sum_only (d1 d2 d1' d2' : ℚ) (h : d1 + d2 = d1' + d2') :
    obl80 d1 d2 = obl80 d1' d2' := by
  have h' : (d1 - DJ00) + d2 = (d1' - DJ00) + d2' := by linarith
  simp only [obl80, h']

/-- Witness for C5 at the concrete splits (2451545, 0) and
(2451544, 1), which sum to the same Julian Date. -/
theorem obl80_sum_only_witness :
    (2451545 : ℚ) + 0 = 2451544 + 1 ∧ obl80 2451545 0 = obl80 2451544 1 :=
  ⟨by norm_num, obl80_sum_only 2451545 0 2451544 1 (by norm_num)⟩

/-- C6: with pressure 0, `refco` returns both refraction coefficients
equal to zero, for every temperature, humidity, wavelength and every
power-function implementation. -/
theorem refco_zero_pressure (pow10 : ℚ → ℚ) (tc rh wl : ℚ) :
    refco pow10 0 tc rh wl = (0, 0) := by
  unfold refco
  norm_num

/-- C7: `refco` at wavelength exactly 100.0 computes by the optical/IR
formula branch, and at wavelength 100.0001 by the radio formula branch:
the 100-micrometer threshold is inclusive on the optical side. -/
theorem refco_branch_boundary (pow10 : ℚ → ℚ) (phpa tc rh : ℚ) :
    refco pow10 phpa tc rh 100.0 = refcoOpticBranch pow10 phpa tc rh 100.0 ∧
    refco pow10 phpa tc rh 100.0001 =
      refcoRadioBranch pow10 phpa tc rh 100.0001 := by
  constructor
  · unfold refco refcoOpticBranch
    norm_num
  · unfold refco refcoRadioBranch
    norm_num

/-- C8: for every positive deflection limiter, the limiter-guarded
divisor of `ld` is at least `dlim` and hence positive, so the division is
by a nonzero quantity, and the scale factor `w` of the deflection term is
bounded in magnitude by `|bm * SRS / em| / dlim` rather than blowing up. -/
theorem ld_denom_positive (bm : ℚ) (q e : V3) (em dlim : ℚ)
    (hd : 0 < dlim) :
    dlim ≤ ldDenom q e dlim ∧ 0 < ldDenom q e dlim ∧
    |bm * SRS / em / ldDenom q e dlim| ≤ |bm * SRS / em| / dlim := by
  have hpos : 0 < ldDenom q e dlim := lt_of_lt_of_le hd (le_max_right _ _)
  refine ⟨le_max_right _ _, hpos, ?_⟩
  rw [abs_div, abs_of_pos hpos]
  exact div_le_div_of_nonneg_left (abs_nonneg _) hd (le_max_right _ _)

/-- Witness for C8 at a concrete positive limiter and concrete vectors. -/
theorem ld_denom_positive_witness :
    (0 : ℚ) < 1 ∧
    ((1 : ℚ) ≤ ldDenom (fun _ => 1) (fun _ => 0) 1 ∧
     0 < ldDenom (fun _ => 1) (fun _ => 0) 1 ∧
     |2 * SRS / 3 / ldDenom (fun _ => 1) (fun _ => 0) 1| ≤
       |2 * SRS / 3| / 1) :=
  ⟨by norm_num,
   ld_denom_positive 2 (fun _ => 1) (fun _ => 0) 3 1 (by norm_num)⟩

/-- C9: the optical/radio decision uses the raw wavelength before
clamping, so every wavelength below the clamp floor 0.1 (including zero
and negative values) takes the optical branch and computes with the
clamped wavelength 0.1: the result equals `refco` at wavelength 0.1. -/
theorem refco_below_min_wavelength (pow10 : ℚ → ℚ) (phpa tc rh wl : ℚ)
    (h : wl < 0.1) :
    refco pow10 phpa tc rh wl = refco pow10 phpa tc rh 0.1 := by
  have h1 : (wl ≤ 100.0) = True := eq_true (le_trans h.le (by norm_num))
  have h0 : ((0.1 : ℚ) ≤ 100.0) = True := eq_true (by norm_num)
  have h2 : max wl 0.1 = (0.1 : ℚ) := max_eq_right h.le
  simp only [refco]
  rw [max_self, h2]
  simp only [h1, h0, if_true]

/-- Witness for C9 at the concrete wavelength 0 (below the clamp
floor). -/
theorem refco_below_min_wavelength_witness :
    (0 : ℚ) < 0.1 ∧
    refco (fun _ => 1) 1000 20 (1/2) 0 = refco (fun _ => 1) 1000 20 (1/2) 0.1 :=
  ⟨by norm_num,
   refco_below_min_wavelength (fun _ => 1) 1000 20 (1/2) 0 (by norm_num)⟩

/-- C10: with zero body mass (and nonzero distance and nonzero
limiter-guarded divisor), `ld` returns the input direction unchanged:
the scale factor is zero, so the correction term vanishes. -/
theorem ld_zero_mass (p q e : V3) (em dlim : ℚ) (hem : em ≠ 0)
    (hD : ldDenom q e dlim ≠ 0) : ld 0 p q e em dlim = p := by
  funext i
  simp [ld]

/-- Witness for C10 at concrete vectors with distance 1 and limiter 1. -/
theorem ld_zero_mass_witness :
    (1 : ℚ) ≠ 0 ∧ ldDenom (fun _ => 1) (fun _ => 0) 1 ≠ 0 ∧
    ld 0 (fun _ => 1) (fun _ => 1) (fun _ => 0) 1 1 = (fun _ => 1) :=
  ⟨by norm_num, by norm_num [ldDenom, pdp],
   ld_zero_mass (fun _ => 1) (fun _ => 1) (fun _ => 0) 1 1 (by norm_num)
     (by norm_num [ldDenom, pdp])⟩
